import Mathlib

/-!
Verification of the wagtailmodeladmin view layer
(src/wagtailmodeladmin/views.py).

The module is request/response branching code.  We embed it shallowly:

* query strings and request parameter dictionaries become association
  lists of strings (keys are distinct, as in a Python dict);
* Python string operations (split, rpartition, int conversion, the
  admin quote utility) are re-implemented on lists of characters so
  that every definition evaluates inside the kernel;
* querysets are modelled symbolically as a record of the filter
  conditions, ordering and select-related state applied so far, with a
  generic row matcher giving the filters a semantics;
* framework collaborators (field list filters, prepare_lookup_value,
  lookup_needs_distinct, the ORM filter call) enter as explicit oracle
  parameters, since their code lives in Django, outside this
  repository;
* Python exceptions become Except errors, and each view dispatch
  returns a ViewResult recording the messages issued, the HTTP
  response produced, and the side effects (session priming, deletion).
-/

set_option autoImplicit false

instance {ε α : Type} [DecidableEq ε] [DecidableEq α] : DecidableEq (Except ε α) := fun a b =>
  match a, b with
  | .error e, .error f =>
    if h : e = f then isTrue (by rw [h]) else isFalse (fun hh => by cases hh; exact h rfl)
  | .ok x, .ok y =>
    if h : x = y then isTrue (by rw [h]) else isFalse (fun hh => by cases hh; exact h rfl)
  | .error _, .ok _ => isFalse (fun h => by cases h)
  | .ok _, .error _ => isFalse (fun h => by cases h)

/-- Helper for splitting: scan for the first occurrence of the separator,
returning the segment before it and (when found) the remainder after it. -/
def splitSepAux (sep : List Char) : List Char → (List Char × Option (List Char))
  | [] => ([], none)
  | c :: rest =>
    if sep ≠ [] ∧ (c :: rest).take sep.length = sep then
      ([], some ((c :: rest).drop sep.length))
    else
      let r := splitSepAux sep rest
      (c :: r.1, r.2)

/-- Fuel-driven splitting of a character list on a (non-empty) separator,
matching the semantics of the Python str.split(sep) method. -/
def splitSepFuel (sep : List Char) : Nat → List Char → List (List Char)
  | 0, xs => [xs]
  | fuel + 1, xs =>
    match splitSepAux sep xs with
    | (seg, none) => [seg]
    | (seg, some rest) => seg :: splitSepFuel sep fuel rest

/-- Python str.split(sep) for a non-empty separator string. -/
def pySplitOn (s : String) (sep : String) : List String :=
  (splitSepFuel sep.toList (s.toList.length + 1) s.toList).map String.mk

/-- Helper for whitespace splitting, accumulating the current word reversed. -/
def pySplitWsAux : List Char → List Char → List (List Char)
  | [], cur => if cur.isEmpty then [] else [cur.reverse]
  | c :: rest, cur =>
    if c.isWhitespace then
      if cur.isEmpty then pySplitWsAux rest []
      else cur.reverse :: pySplitWsAux rest []
    else pySplitWsAux rest (c :: cur)

/-- Python str.split() with no argument: split on runs of whitespace,
discarding empty strings. -/
def pySplitWs (s : String) : List String :=
  (pySplitWsAux s.toList []).map String.mk

/-- Digits of a character list read as a base-10 natural number;
none when the list is empty or contains a non-digit. -/
def digitsToNat : List Char → Option Nat
  | [] => none
  | ds =>
    if ds.all Char.isDigit then
      some (ds.foldl (fun n c => n * 10 + (c.toNat - 48)) 0)
    else none

/-- Python int(str): optional surrounding whitespace, an optional sign,
then decimal digits; none models a ValueError. -/
def pyInt (s : String) : Option Int :=
  let cs := ((s.toList.dropWhile Char.isWhitespace).reverse.dropWhile
    Char.isWhitespace).reverse
  match cs with
  | '+' :: ds => (digitsToNat ds).map Int.ofNat
  | '-' :: ds => (digitsToNat ds).map (fun n => -(Int.ofNat n : Int))
  | ds => (digitsToNat ds).map Int.ofNat

/-- Python str.rpartition(chr) restricted to what get_ordering uses: the pair
of the separator found (either a dash or the empty string) and the part
after the last dash. -/
def rpartitionDash (p : String) : String × String :=
  let segs := splitSepFuel ['-'] (p.toList.length + 1) p.toList
  if segs.length ≤ 1 then ("", p)
  else ("-", String.mk ((segs.getLast?).getD []))

/-- Characters replaced by the Django admin quote utility
(django.contrib.admin.utils.quote); all are ASCII. -/
def quoteSpecialChars : List Char :=
  [':', '/', '_', '#', '?', ';', '@', '&', '=', '+', '$', ',', '"',
   '[', ']', '<', '>', '%', '\n', '\\']

/-- Single uppercase hexadecimal digit. -/
def hexDigitChar (n : Nat) : Char :=
  if n < 10 then Char.ofNat (48 + n) else Char.ofNat (55 + n)

/-- Formatting of a character code below 256 in the style of the Python
format string with percent, zero, two, upper X. -/
def hexPad2 (n : Nat) : List Char :=
  [hexDigitChar (n / 16), hexDigitChar (n % 16)]

/-- Django admin quote: replace each special character by an underscore
followed by its character code in uppercase hexadecimal. -/
def quote (s : String) : String :=
  String.mk (s.toList.foldr
    (fun c acc =>
      if quoteSpecialChars.contains c then '_' :: hexPad2 c.toNat ++ acc
      else c :: acc) [])

/-- Request parameters: an association list standing for a Python dict
(keys distinct). -/
abbrev Params : Type := List (String × String)

/-- Dictionary lookup on request parameters. -/
def getParam (ps : Params) (k : String) : Option String :=
  (ps.find? (fun kv => kv.1 = k)).map (fun kv => kv.2)

/-- Dictionary filtering on request parameters. -/
def filterParams (ps : Params) (keep : String × String → Bool) : Params :=
  ps.filter keep

-- IndexView settings (module constants of views.py).
def ORDER_VAR : String := "o"
def ORDER_TYPE_VAR : String := "ot"
def PAGE_VAR : String := "p"
def SEARCH_VAR : String := "q"
def ERROR_FLAG : String := "e"
def IGNORED_PARAMS : List String := [ORDER_VAR, ORDER_TYPE_VAR, SEARCH_VAR]

/-- Recognised lookup query terms (django.db.models.sql.constants.QUERY_TERMS
for the Django generation this module targets). -/
def QUERY_TERMS : List String :=
  ["exact", "iexact", "contains", "icontains", "gt", "gte", "lt", "lte",
   "in", "startswith", "istartswith", "endswith", "iendswith", "range",
   "year", "month", "day", "week_day", "hour", "minute", "second",
   "isnull", "search", "regex", "iregex"]

/-- URL names of the page views of the surrounding framework, selected on the
framework version exactly as the module-level code of views.py does. -/
structure PageUrlNames where
  create : String
  edit : String
  unpublish : String
  delete : String
  copy : String
  deriving DecidableEq

/-- Computation of the page URL names from the framework version string. -/
def pageUrlNames (wagtail_version : String) : PageUrlNames :=
  if (wagtail_version.toList.take 3 = "1.0".toList) ∨
     (wagtail_version.toList.take 2 = "0.".toList) then
    { create := "wagtailadmin_pages_create", edit := "wagtailadmin_pages_edit",
      unpublish := "wagtailadmin_pages_unpublish",
      delete := "wagtailadmin_pages_delete", copy := "wagtailadmin_pages_copy" }
  else
    { create := "wagtailadmin_pages:add", edit := "wagtailadmin_pages:edit",
      unpublish := "wagtailadmin_pages:unpublish",
      delete := "wagtailadmin_pages:delete", copy := "wagtailadmin_pages:copy" }

/-- Last element of a list of strings, or the empty string. -/
def lastStr (parts : List String) : String := (parts.getLast?).getD ""

/-- Joining of string parts with a separator (Python str.join). -/
def joinSep (sepStr : String) : List String → String
  | [] => ""
  | [s] => s
  | s :: rest => s ++ sepStr ++ joinSep sepStr rest

/-- Result of self.model._meta.get_field_by_name for one path part, as
lookup_allowed inspects it: a field carrying a rel attribute (rel is either
None or resolves to the name of the related field), a ForeignObjectRel
(carrying the primary-key name of its model), or a plain field. -/
inductive FieldInfo
  | relField (rel : Option String)
  | foreignObjectRel (pk_name : String)
  | plain
  deriving DecidableEq

/-- Result of self.opts.get_field as used by get_ordering_field and
has_related_field_in_list_display. -/
structure OptsField where
  name : String
  many_to_one_rel : Bool
  deriving DecidableEq

/-- The slice of the model _meta object that the index view reads.
related_fkey_lookups is flattened to the (key, value) pairs produced by
url_params_from_lookup_dict over all registered lookups. -/
structure ModelMeta where
  get_field_by_name : String → Option FieldInfo
  get_field : String → Option OptsField
  related_fkey_lookups : List (String × String)
  pk_name : String

/-- Outcome of the rel-name loop of lookup_allowed: an early return of True
(non-existent field, or a rel attribute that is None), or the final
rel_name value. -/
inductive RelNameResult
  | earlyTrue
  | done (rel_name : Option String)
  deriving DecidableEq

/-- The loop over parts of lookup_allowed (views.py lines 346-364),
threading the rel_name variable. -/
def relNameLoop (meta : ModelMeta) : List String → Option String → RelNameResult
  | [], rel_name => RelNameResult.done rel_name
  | part :: rest, _ =>
    match meta.get_field_by_name part with
    | none => RelNameResult.earlyTrue
    | some (FieldInfo.relField none) => RelNameResult.earlyTrue
    | some (FieldInfo.relField (some rn)) => relNameLoop meta rest (some rn)
    | some (FieldInfo.foreignObjectRel pk) => relNameLoop meta rest (some pk)
    | some FieldInfo.plain => relNameLoop meta rest none

/-- The parts of a lookup as lookup_allowed computes them (views.py lines
334-339): split on the lookup separator, with a trailing recognised query
term dropped. -/
def lookupParts (lookup : String) : List String :=
  let parts0 := pySplitOn lookup "__"
  if parts0.length > 1 ∧ QUERY_TERMS.contains (lastStr parts0) then parts0.dropLast
  else parts0

/-- The tail of lookup_allowed after the parts are computed (views.py lines
345-371): the rel-name loop with its early returns, the drop of a trailing
related-field name, and the final single-part or list_filter membership
test. -/
def lookupAllowedParts (meta : ModelMeta) (list_filter : List String)
    (parts1 : List String) : Bool :=
  match relNameLoop meta parts1.dropLast none with
  | RelNameResult.earlyTrue => true
  | RelNameResult.done rel_name =>
    let parts2 :=
      match rel_name with
      | some rn =>
        if rn ≠ "" ∧ parts1.length > 1 ∧ lastStr parts1 = rn then parts1.dropLast
        else parts1
      | none => parts1
    if parts2.length = 1 then true
    else list_filter.contains (joinSep "__" parts2)

/-- IndexView.lookup_allowed (views.py lines 325-371). -/
def lookup_allowed (meta : ModelMeta) (list_filter : List String)
    (lookup value : String) : Bool :=
  if meta.related_fkey_lookups.any (fun kv => kv.1 = lookup ∧ kv.2 = value) then true
  else lookupAllowedParts meta list_filter (lookupParts lookup)

/-- A queryset, modelled symbolically: the conjunction of filter conditions
applied so far (each conjunct an OR-group of field lookups), the ordering,
the select-related state of the underlying query, and the distinct flag. -/
structure Queryset where
  filters : List (List (String × String))
  order_by : List String
  query_select_related : Bool := false
  distinct : Bool := false
  deriving DecidableEq

/-- Semantics of one OR-group of lookups under a row matcher M. -/
def evalOrGroup {ρ : Type} (M : String → String → ρ → Bool)
    (group : List (String × String)) (row : ρ) : Bool :=
  group.any (fun lv => M lv.1 lv.2 row)

/-- Semantics of a queryset filter under a row matcher M: a row is kept when
every conjunct has a matching lookup. -/
def Queryset.matches {ρ : Type} (qs : Queryset) (M : String → String → ρ → Bool)
    (row : ρ) : Bool :=
  qs.filters.all (fun g => evalOrGroup M g row)

/-- The value of model_admin.list_select_related (a bool or a field list). -/
inductive SelectRelatedSetting
  | strue
  | sfalse
  | fields (fs : List String)
  deriving DecidableEq

/-- The configuration the index view draws from its model_admin and model:
list_display, list_filter (string entries), search_fields, orderings,
pagination size and select-related setting.  admin_order_field abstracts the
attribute-reflection fallback of get_ordering_field (views.py lines 502-510):
the admin_order_field attribute of the named method or callable, none when
that attribute is absent. -/
structure IndexConfig where
  meta : ModelMeta
  list_display : List String
  list_filter : List String
  search_fields : List String
  model_admin_ordering : List String
  opts_ordering : List String
  admin_order_field : String → Option String
  items_per_page : Nat
  select_related : SelectRelatedSetting

/-- Exceptions of the index-view pipeline.  DisallowedModelAdminLookup is a
SuspiciousOperation subclass in Django; FieldDoesNotExist and
IncorrectLookupParameters are the other framework exceptions involved. -/
inductive AdminError
  | disallowedModelAdminLookup (key : String)
  | fieldDoesNotExist
  | incorrectLookupParameters
  | suspiciousOperation
  | improperlyConfigured
  deriving DecidableEq

/-- Kind of exception the ORM filter call can raise. -/
inductive FilterExcKind
  | suspicious
  | improperlyConfigured
  | other
  deriving DecidableEq

/-- Oracles for the Django collaborators the view calls into; their code
lives in the framework, outside this repository.  create_filter_spec builds
the FieldListFilter for a field-name filter, returning has_output and the
lookup params left after the spec consumed its own (errors propagate as in
Python).  lookup_needs_distinct returns none to model FieldDoesNotExist.
qs_filter_exc tells whether the ORM filter call on the remaining lookup
params raises, and which kind of exception. -/
structure Framework where
  create_filter_spec : String → Params → Except AdminError (Bool × Params)
  spec_queryset : String → Queryset → Option Queryset
  prepare_lookup_value : String → String → String
  lookup_needs_distinct : String → Option Bool
  qs_filter_exc : Params → Option FilterExcKind

/-- IndexView.get_filters_params: all retained params except IGNORED_PARAMS
(views.py lines 373-385). -/
def get_filters_params (params : Params) : Params :=
  filterParams params (fun kv => ¬ IGNORED_PARAMS.contains kv.1)

/-- First lookup parameter rejected by lookup_allowed, scanning in dictionary
order as the loop of get_filters does (views.py lines 391-394). -/
def firstDisallowed (meta : ModelMeta) (list_filter : List String) (ps : Params) :
    Option (String × String) :=
  ps.find? (fun kv => ¬ lookup_allowed meta list_filter kv.1 kv.2)

/-- Result tuple of get_filters; filter specs are named by their field. -/
structure FiltersResult where
  filter_specs : List String
  has_filters : Bool
  lookup_params : Params
  use_distinct : Bool
  deriving DecidableEq

/-- The list_filter loop of get_filters (views.py lines 397-435) for
string-valued filters: each field name builds a FieldListFilter through the
framework oracle, which consumes its own lookup params; specs with output are
collected, and lookup_needs_distinct on the field path is accumulated (a
FieldDoesNotExist there propagates uncaught, as in Python). -/
def specsLoop (fw : Framework) :
    List String → (List String × Params × Bool) →
    Except AdminError (List String × Params × Bool)
  | [], acc => Except.ok acc
  | lf :: rest, (specs, lps, ud) => do
    let r ← fw.create_filter_spec lf lps
    match fw.lookup_needs_distinct lf with
    | none => Except.error AdminError.fieldDoesNotExist
    | some b =>
      specsLoop fw rest
        (if r.1 then specs ++ [lf] else specs, r.2, ud || b)

/-- The closing loop of get_filters (views.py lines 443-455): prepare each
remaining lookup value and accumulate lookup_needs_distinct; a
FieldDoesNotExist is re-raised as IncorrectLookupParameters. -/
def prepLoop (fw : Framework) :
    List (String × String) → (Params × Bool) → Except AdminError (Params × Bool)
  | [], acc => Except.ok acc
  | (k, v) :: rest, (out, ud) =>
    match fw.lookup_needs_distinct k with
    | none => Except.error AdminError.incorrectLookupParameters
    | some b => prepLoop fw rest (out ++ [(k, fw.prepare_lookup_value k v)], ud || b)

/-- IndexView.get_filters (views.py lines 387-455); the local lookup_params
of the source, get_filters_params of the retained params, is written out at
both of its uses. -/
def get_filters (cfg : IndexConfig) (fw : Framework) (params : Params) :
    Except AdminError FiltersResult :=
  match firstDisallowed cfg.meta cfg.list_filter (get_filters_params params) with
  | some kv => Except.error (AdminError.disallowedModelAdminLookup kv.1)
  | none => do
    let r ← specsLoop fw cfg.list_filter ([], get_filters_params params, false)
    let r2 ← prepLoop fw r.2.1 (([] : Params), r.2.2)
    Except.ok { filter_specs := r.1, has_filters := ¬ r.1.isEmpty,
                lookup_params := r2.1, use_distinct := r2.2 }

/-- The construct_search helper of get_search_results (views.py lines
299-307): a leading caret selects istartswith, an equals sign iexact, an
at sign search, and otherwise icontains. -/
def construct_search (field_name : String) : String :=
  match field_name.toList with
  | '^' :: rest => String.mk rest ++ "__istartswith"
  | '=' :: rest => String.mk rest ++ "__iexact"
  | '@' :: rest => String.mk rest ++ "__search"
  | _ => field_name ++ "__icontains"

/-- IndexView.get_search_results (views.py lines 293-323).  For each
whitespace-separated bit of the search term the queryset is filtered by the
OR of the constructed lookups; the distinct flag is set when some lookup
needs distinct (the lookup_needs_distinct argument abstracts the framework
helper on valid search fields). -/
def get_search_results (search_fields : List String)
    (needs_distinct : String → Bool) (queryset : Queryset)
    (search_term : String) : Queryset × Bool :=
  if search_fields ≠ [] ∧ search_term ≠ "" then
    let orm_lookups := search_fields.map construct_search
    let qs := (pySplitWs search_term).foldl
      (fun q bit =>
        { q with filters := q.filters ++ [orm_lookups.map (fun l => (l, bit))] })
      queryset
    (qs, orm_lookups.any needs_distinct)
  else (queryset, false)

/-- IndexView.get_default_ordering (views.py lines 483-488):
model_admin.get_ordering(request) if truthy, else the model Meta ordering,
else empty. -/
def get_default_ordering (cfg : IndexConfig) : List String :=
  if cfg.model_admin_ordering ≠ [] then cfg.model_admin_ordering
  else if cfg.opts_ordering ≠ [] then cfg.opts_ordering
  else []

/-- IndexView.get_ordering_field (views.py lines 490-510): the name of the
model field when opts.get_field succeeds, otherwise the admin_order_field
attribute of the named admin or model attribute. -/
def get_ordering_field (cfg : IndexConfig) (field_name : String) : Option String :=
  match cfg.meta.get_field field_name with
  | some f => some f.name
  | none => cfg.admin_order_field field_name

/-- Python list indexing, where a negative index counts from the end and an
out-of-range index raises IndexError (none). -/
def pyListGet {α : Type} (xs : List α) (i : Int) : Option α :=
  if 0 ≤ i then xs.get? i.toNat
  else if (-i).toNat ≤ xs.length then xs.get? (xs.length - (-i).toNat)
  else none

/-- The ORDER_VAR branch of get_ordering (views.py lines 524-540): each
dot-separated piece is rpartitioned on the dash, the index resolved in
list_display and mapped through get_ordering_field; pieces with no ordering
field, an unparseable index or an out-of-range index are skipped, and a
field already carrying a dash prefix is un-reversed when the piece asks for
descending order. -/
def orderingFromParams (cfg : IndexConfig) (ov : String) : List String :=
  (pySplitOn ov ".").foldl
    (fun acc p =>
      let pr := rpartitionDash p
      match pyInt pr.2 with
      | none => acc
      | some idx =>
        match pyListGet cfg.list_display idx with
        | none => acc
        | some field_name =>
          match get_ordering_field cfg field_name with
          | none => acc
          | some order_field =>
            if order_field = "" then acc
            else if order_field.toList.take 1 = ['-'] ∧ pr.1 = "-" then
              acc ++ [String.mk (order_field.toList.drop 1)]
            else acc ++ [pr.1 ++ order_field]) []

/-- The ordering list of get_ordering before the primary-key guard
(views.py lines 521-543): query-string ordering when ORDER_VAR is present,
else the default ordering, then the ordering of the queryset itself. -/
def ordering_before_pk (cfg : IndexConfig) (params : Params)
    (qs_order_by : List String) : List String :=
  let ordering :=
    match getParam params ORDER_VAR with
    | some ov => orderingFromParams cfg ov
    | none => get_default_ordering cfg
  ordering ++ qs_order_by

/-- The primary-key membership test of get_ordering (views.py line 549). -/
def containsPkOrdering (cfg : IndexConfig) (ordering : List String) : Bool :=
  ordering.contains "pk" || ordering.contains "-pk" ||
  ordering.contains cfg.meta.pk_name || ordering.contains ("-" ++ cfg.meta.pk_name)

/-- IndexView.get_ordering (views.py lines 512-554). -/
def get_ordering (cfg : IndexConfig) (params : Params) (qs_order_by : List String) :
    List String :=
  let ordering := ordering_before_pk cfg params qs_order_by
  if containsPkOrdering cfg ordering then ordering else ordering ++ ["-pk"]

/-- IndexView.has_related_field_in_list_display (views.py lines 647-656). -/
def has_related_field_in_list_display (cfg : IndexConfig) : Bool :=
  cfg.list_display.any (fun fn =>
    match cfg.meta.get_field fn with
    | some f => f.many_to_one_rel
    | none => false)

/-- IndexView.apply_select_related (views.py lines 635-645). -/
def apply_select_related (setting : SelectRelatedSetting) (has_related : Bool)
    (qs : Queryset) : Queryset :=
  match setting with
  | SelectRelatedSetting.strue => { qs with query_select_related := true }
  | SelectRelatedSetting.sfalse =>
    if has_related then { qs with query_select_related := true } else qs
  | SelectRelatedSetting.fields fs =>
    if fs ≠ [] then { qs with query_select_related := true } else qs

/-- IndexView.get_queryset (views.py lines 589-633): collect the filters,
let each filter spec narrow the queryset, apply the remaining lookup params
(re-raising SuspiciousOperation and ImproperlyConfigured as-is and turning
anything else into IncorrectLookupParameters), apply select-related, set the
ordering, apply the search, and de-duplicate when required. -/
def get_queryset (cfg : IndexConfig) (fw : Framework) (baseQs : Queryset)
    (params : Params) (query : String) : Except AdminError Queryset := do
  let fr ← get_filters cfg fw params
  let qs := fr.filter_specs.foldl
    (fun q s =>
      match fw.spec_queryset s q with
      | some q2 => q2
      | none => q) baseQs
  let qs ← match fw.qs_filter_exc fr.lookup_params with
    | some FilterExcKind.suspicious => Except.error AdminError.suspiciousOperation
    | some FilterExcKind.improperlyConfigured =>
      Except.error AdminError.improperlyConfigured
    | some FilterExcKind.other => Except.error AdminError.incorrectLookupParameters
    | none =>
      Except.ok { qs with filters := qs.filters ++ fr.lookup_params.map (fun kv => [kv]) }
  let qs :=
    if ¬ qs.query_select_related then
      apply_select_related cfg.select_related (has_related_field_in_list_display cfg) qs
    else qs
  let qs := { qs with order_by := get_ordering cfg params qs.order_by }
  let sr := get_search_results cfg.search_fields
    (fun sf => (fw.lookup_needs_distinct sf).getD false) qs query
  if fr.use_distinct || sr.2 then Except.ok { sr.1 with distinct := true }
  else Except.ok sr.1

/-- The page-number parsing of IndexView.dispatch (views.py lines 266-270):
the PAGE_VAR parameter as an int, or zero when absent or unparseable. -/
def parse_page_num (get : Params) : Int :=
  match getParam get PAGE_VAR with
  | none => 0
  | some s => (pyInt s).getD 0

/-- The retained-parameter dictionary of IndexView.dispatch (views.py lines
272-276): the GET parameters with PAGE_VAR and ERROR_FLAG removed. -/
def computeParams (get : Params) : Params :=
  filterParams get (fun kv => kv.1 ≠ PAGE_VAR ∧ kv.1 ≠ ERROR_FLAG)

/-- Number of pages of the Django paginator with allow_empty_first_page:
at least one page, otherwise the ceiling of count over per_page. -/
def num_pages (count per_page : Nat) : Nat :=
  if count = 0 then 1 else (count + per_page - 1) / per_page

/-- Paginator.page: the validated page number, or none (InvalidPage) when
out of the range from one to num_pages. -/
def paginator_page (count per_page : Nat) (n : Int) : Option Nat :=
  if 1 ≤ n ∧ n ≤ (num_pages count per_page : Int) then some n.toNat else none

/-- The page selection of IndexView.get_context_data (views.py lines
666-669): page page_num plus one, falling back to the first page on
InvalidPage. -/
def displayed_page (count per_page : Nat) (page_num : Int) : Nat :=
  match paginator_page count per_page (page_num + 1) with
  | some p => p
  | none => 1

/-- A message issued through the framework messages API. -/
inductive Msg
  | errorMsg (text : String)
  | successMsg (text : String)
  deriving DecidableEq

/-- The HTTP response a view produces: a redirect to a named URL with
positional arguments, a redirect to a literal URL, delegation to the generic
template-view machinery of the base class, or the re-rendered confirm-delete
template with the protected-delete error context. -/
inductive Http
  | redirectName (url_name : String) (args : List String)
  | redirectUrl (url : String)
  | superDispatch
  | renderDeleteError (linked_objects : List String)
  deriving DecidableEq

/-- Observable outcome of a view: messages issued, the HTTP response, and
the side effects on the session and the database. -/
structure ViewResult where
  msgs : List Msg
  http : Http
  sessionPrimed : Bool := false
  deleted : Bool := false
  deriving DecidableEq

/-- Text of the permission-denied message (views.py lines 77-80); the
source wraps the word you-do-not in typographic punctuation omitted here. -/
def permission_denied_message : String :=
  "Sorry, you do not have permission to access this area."

/-- permission_denied_response (views.py lines 77-80): an error message and
a redirect to the admin home page. -/
def permission_denied_response : ViewResult :=
  { msgs := [Msg.errorMsg permission_denied_message],
    http := Http.redirectName "wagtailadmin_home" [] }

/-- The per-view context shared by the dispatch methods: whether the model
is a page model, the app label, model name and object id, and the URLs the
model_admin provides. -/
structure ViewCtx where
  is_pagemodel : Bool
  app_label : String
  model_name : String
  object_id : String
  choose_parent_url : String
  index_url : String
  deriving DecidableEq

/-- CreateView.dispatch (views.py lines 850-871): deny without add
permission; for page models prime the session and redirect to the framework
page-create view when exactly one valid parent exists, else to the
choose-parent view; otherwise fall through to the form view. -/
def CreateView.dispatch (ctx : ViewCtx) (names : PageUrlNames)
    (has_add_permission : Bool) (valid_parent_pks : List String) : ViewResult :=
  if ¬ has_add_permission then permission_denied_response
  else if ctx.is_pagemodel then
    match valid_parent_pks with
    | [parent_pk] =>
      { msgs := [],
        http := Http.redirectName names.create [ctx.app_label, ctx.model_name, parent_pk],
        sessionPrimed := true }
    | _ =>
      { msgs := [], http := Http.redirectUrl ctx.choose_parent_url,
        sessionPrimed := true }
  else { msgs := [], http := Http.superDispatch }

/-- ChooseParentView.dispatch (views.py lines 884-887). -/
def ChooseParentView.dispatch (has_add_permission : Bool) : ViewResult :=
  if ¬ has_add_permission then permission_denied_response
  else { msgs := [], http := Http.superDispatch }

/-- InspectView.dispatch (views.py lines 709-713), whose permission check is
has_list_permission. -/
def InspectView.dispatch (has_list_permission : Bool) : ViewResult :=
  if ¬ has_list_permission then permission_denied_response
  else { msgs := [], http := Http.superDispatch }

/-- EditView.dispatch (views.py lines 921-928): deny unless can_edit_object;
for page models prime the session and redirect to the framework page-edit
view for the object id; otherwise fall through to the form view. -/
def EditView.dispatch (ctx : ViewCtx) (names : PageUrlNames)
    (can_edit_object : Bool) : ViewResult :=
  if ¬ can_edit_object then permission_denied_response
  else if ctx.is_pagemodel then
    { msgs := [], http := Http.redirectName names.edit [ctx.object_id],
      sessionPrimed := true }
  else { msgs := [], http := Http.superDispatch }

/-- UnpublishRedirectView.dispatch (views.py lines 1023-1028): deny unless
can_unpublish_object, else prime the session and redirect to the framework
page-unpublish view for the object id. -/
def UnpublishRedirectView.dispatch (ctx : ViewCtx) (names : PageUrlNames)
    (can_unpublish_object : Bool) : ViewResult :=
  if ¬ can_unpublish_object then permission_denied_response
  else
    { msgs := [], http := Http.redirectName names.unpublish [ctx.object_id],
      sessionPrimed := true }

/-- CopyRedirectView.dispatch (views.py lines 1036-1041): deny unless
can_copy_object, else prime the session and redirect to the framework
page-copy view for the object id. -/
def CopyRedirectView.dispatch (ctx : ViewCtx) (names : PageUrlNames)
    (can_copy_object : Bool) : ViewResult :=
  if ¬ can_copy_object then permission_denied_response
  else
    { msgs := [], http := Http.redirectName names.copy [ctx.object_id],
      sessionPrimed := true }

/-- A related-object descriptor as ConfirmDeleteView.post walks them
(views.py lines 1000-1004): whether the relation protects deletion, and the
objects reachable through its accessor. -/
structure RelObj where
  on_delete_protect : Bool
  accessor_objects : List String
  deriving DecidableEq

/-- The model-level environment of ConfirmDeleteView.post: whether deleting
the instance raises ProtectedError, the related-object descriptors, the
display names, and the index URL. -/
structure DeleteEnv where
  delete_raises_protected : Bool
  related : List RelObj
  model_name : String
  instance_text : String
  index_url : String
  deriving DecidableEq

/-- Python runtime errors surfacing from view code itself. -/
inductive PyError
  | unboundLocalError
  deriving DecidableEq

/-- The linked-object walk of the ProtectedError branch (views.py lines
999-1004): all objects reachable through relations whose on_delete is
PROTECT. -/
def protectedLinkedObjects (related : List RelObj) : List String :=
  related.foldl
    (fun acc r => if r.on_delete_protect then acc ++ r.accessor_objects else acc) []

/-- ConfirmDeleteView.post (views.py lines 984-1012).  With non-empty form
data the instance is deleted (success message, redirect to the index) unless
ProtectedError is raised, in which case an error message is issued and the
confirm-delete template re-rendered with the objects linked through PROTECT
relations.  With empty form data the final render reads the local variable
context before any branch assigned it, an UnboundLocalError.  The message
texts follow the source with its quotation punctuation omitted. -/
def ConfirmDeleteView.post (env : DeleteEnv) (postData : Params) :
    Except PyError ViewResult :=
  if postData ≠ ([] : Params) then
    if ¬ env.delete_raises_protected then
      Except.ok
        { msgs := [Msg.successMsg (env.model_name ++ " " ++ env.instance_text ++ " deleted.")],
          http := Http.redirectUrl env.index_url, deleted := true }
    else
      Except.ok
        { msgs := [Msg.errorMsg
            (env.model_name ++ " " ++ env.instance_text ++ " could not be deleted.")],
          http := Http.renderDeleteError (protectedLinkedObjects env.related),
          deleted := false }
  else Except.error PyError.unboundLocalError

/-- ConfirmDeleteView.dispatch (views.py lines 955-963) composed with post:
deny unless can_delete_object; for page models prime the session and
redirect to the framework page-delete view; otherwise the POST is handled
by ConfirmDeleteView.post. -/
def ConfirmDeleteView.handlePost (ctx : ViewCtx) (names : PageUrlNames)
    (can_delete_object : Bool) (env : DeleteEnv) (postData : Params) :
    Except PyError ViewResult :=
  if ¬ can_delete_object then Except.ok permission_denied_response
  else if ctx.is_pagemodel then
    Except.ok
      { msgs := [], http := Http.redirectName names.delete [ctx.object_id],
        sessionPrimed := true }
  else ConfirmDeleteView.post env postData

/-- IndexView.dispatch (views.py lines 257-284): parse the page number and
the retained params, read the search term, compute the queryset (before the
permission check, so its exceptions propagate), then deny without
allow_list_view and otherwise continue into the template machinery. -/
def IndexView.dispatch (cfg : IndexConfig) (fw : Framework) (baseQs : Queryset)
    (get : Params) (allow_list_view : Bool) : Except AdminError ViewResult := do
  let _page_num := parse_page_num get
  let params := computeParams get
  let query := (getParam get SEARCH_VAR).getD ""
  let _qs ← get_queryset cfg fw baseQs params query
  if ¬ allow_list_view then Except.ok permission_denied_response
  else Except.ok { msgs := [], http := Http.superDispatch }

/-- Exceptions of ObjectSpecificView construction: Http404 from
get_object_or_404, or MultipleObjectsReturned from the underlying get. -/
inductive ObjErr
  | notFound404
  | multipleObjectsReturned
  deriving DecidableEq

/-- ObjectSpecificView.__init__ (views.py lines 228-236): the default
manager queryset is filtered on the primary-key attribute equal to the
admin-quoted object id, and get_object_or_404 raises Http404 when nothing
matches.  The database is an association list from primary-key value to
object. -/
def objectSpecificInit {α : Type} (db : List (String × α)) (object_id : String) :
    Except ObjErr α :=
  let pk_safe := quote object_id
  match db.filter (fun e => e.1 = pk_safe) with
  | [] => Except.error ObjErr.notFound404
  | [e] => Except.ok e.2
  | _ => Except.error ObjErr.multipleObjectsReturned

/-- An object-specific view as a whole: construction followed by whatever
dispatch does with the instance.  Construction failures short-circuit, so
dispatch (and with it every permission check and action) never runs. -/
def objectViewRun {α : Type} (db : List (String × α)) (object_id : String)
    (dispatch_after : α → ViewResult) : Except ObjErr ViewResult :=
  (objectSpecificInit db object_id).map dispatch_after

/-! Sample fixtures used by witnesses and counterexamples. -/

/-- A small model meta: two plain fields a and b, one opts field title. -/
def sampleMeta : ModelMeta :=
  { get_field_by_name := fun n =>
      if n = "a" then some FieldInfo.plain
      else if n = "b" then some FieldInfo.plain else none,
    get_field := fun n =>
      if n = "title" then some (OptsField.mk "title" false) else none,
    related_fkey_lookups := [],
    pk_name := "id" }

/-- A small index configuration over sampleMeta with title on display. -/
def sampleCfg : IndexConfig :=
  { meta := sampleMeta, list_display := ["title"], list_filter := [],
    search_fields := [], model_admin_ordering := [], opts_ordering := [],
    admin_order_field := fun _ => none, items_per_page := 10,
    select_related := SelectRelatedSetting.sfalse }

/-- A framework oracle where every collaborator behaves trivially. -/
def sampleFw : Framework :=
  { create_filter_spec := fun _ lps => Except.ok (true, lps),
    spec_queryset := fun _ q => some q,
    prepare_lookup_value := fun _ v => v,
    lookup_needs_distinct := fun _ => some false,
    qs_filter_exc := fun _ => none }

/-- An unfiltered, unordered base queryset. -/
def sampleQs : Queryset := { filters := [], order_by := [] }

/-- Page URL names for a modern framework version. -/
def sampleNames : PageUrlNames := pageUrlNames "1.5"

/-- A view context for a non-page model. -/
def sampleCtx : ViewCtx :=
  { is_pagemodel := false, app_label := "app", model_name := "thing",
    object_id := "3", choose_parent_url := "/choose", index_url := "/index" }

/-- A view context for a page model. -/
def sampleCtxPage : ViewCtx := { sampleCtx with is_pagemodel := true }

/-- A delete environment whose delete succeeds. -/
def sampleDeleteEnv : DeleteEnv :=
  { delete_raises_protected := false, related := [], model_name := "Thing",
    instance_text := "t1", index_url := "/index" }

/-- A delete environment whose delete raises ProtectedError, with one
protecting relation. -/
def sampleDeleteEnvProtected : DeleteEnv :=
  { delete_raises_protected := true,
    related := [RelObj.mk true ["linked1", "linked2"], RelObj.mk false ["free1"]],
    model_name := "Thing", instance_text := "t1", index_url := "/index" }

/-! Claim theorems. -/

/-- Helper: a one-element parts list makes lookupAllowedParts return true,
whatever the meta and list_filter are. -/
theorem lookupAllowedParts_single (meta : ModelMeta) (list_filter : List String)
    (parts1 : List String) (h : parts1.length = 1) :
    lookupAllowedParts meta list_filter parts1 = true := by
  obtain ⟨a, ha⟩ : ∃ a, parts1 = [a] := by
    cases parts1 with
    | nil => simp at h
    | cons x t =>
      cases t with
      | nil => exact ⟨x, rfl⟩
      | cons y t2 => simp at h
  subst ha
  rfl

/-- C10: a lookup whose parts, after dropping a trailing recognised query
term, form a single part (no relation-traversal separator) is always allowed
by IndexView.lookup_allowed, for every value and every configured
list_filter. -/
theorem claim10_single_part_always_allowed (meta : ModelMeta)
    (list_filter : List String) (lookup value : String)
    (h : (lookupParts lookup).length = 1) :
    lookup_allowed meta list_filter lookup value = true := by
  unfold lookup_allowed
  split
  · rfl
  · exact lookupAllowedParts_single meta list_filter (lookupParts lookup) h

/-- Witness for C10 at a concrete direct-field lookup with a query term. -/
theorem claim10_witness :
    (lookupParts "name__exact").length = 1 ∧
    lookup_allowed sampleMeta [] "name__exact" "17" = true :=
  ⟨by decide,
   claim10_single_part_always_allowed sampleMeta [] "name__exact" "17" (by decide)⟩

/-- C9: the ordering returned by IndexView.get_ordering always contains one
of pk, -pk, the primary-key field name or its dash-prefixed form, and when
the combined ordering (query-string or default ordering plus the ordering of
the queryset) contains none of these, -pk is appended as the final field. -/
theorem claim9_pk_always_in_ordering (cfg : IndexConfig) (params : Params)
    (qs_order_by : List String) :
    ("pk" ∈ get_ordering cfg params qs_order_by ∨
     "-pk" ∈ get_ordering cfg params qs_order_by ∨
     cfg.meta.pk_name ∈ get_ordering cfg params qs_order_by ∨
     ("-" ++ cfg.meta.pk_name) ∈ get_ordering cfg params qs_order_by) ∧
    (containsPkOrdering cfg (ordering_before_pk cfg params qs_order_by) = false →
      get_ordering cfg params qs_order_by =
        ordering_before_pk cfg params qs_order_by ++ ["-pk"]) := by
  constructor
  · unfold get_ordering
    by_cases hc : containsPkOrdering cfg (ordering_before_pk cfg params qs_order_by) = true
    · rw [if_pos hc]
      unfold containsPkOrdering at hc
      simp only [Bool.or_eq_true] at hc
      rcases hc with ((h1 | h2) | h3) | h4
      · exact Or.inl (List.elem_iff.mp h1)
      · exact Or.inr (Or.inl (List.elem_iff.mp h2))
      · exact Or.inr (Or.inr (Or.inl (List.elem_iff.mp h3)))
      · exact Or.inr (Or.inr (Or.inr (List.elem_iff.mp h4)))
    · rw [if_neg hc]
      right; left
      exact List.mem_append_right _ (List.mem_singleton.mpr rfl)
  · intro h
    unfold get_ordering
    rw [if_neg (by rw [h]; simp)]

/-- Witness for C9 at a concrete configuration with no default ordering. -/
theorem claim9_witness :
    ("pk" ∈ get_ordering sampleCfg [] [] ∨ "-pk" ∈ get_ordering sampleCfg [] [] ∨
     sampleCfg.meta.pk_name ∈ get_ordering sampleCfg [] [] ∨
     ("-" ++ sampleCfg.meta.pk_name) ∈ get_ordering sampleCfg [] []) ∧
    get_ordering sampleCfg [] [] = ordering_before_pk sampleCfg [] [] ++ ["-pk"] :=
  ⟨(claim9_pk_always_in_ordering sampleCfg [] []).1,
   (claim9_pk_always_in_ordering sampleCfg [] []).2 (by decide)⟩

/-- Counterexample to C4 as stated: two index requests that differ only in
the value of the ordering-direction parameter ot produce exactly the same
ordering, at the canonical input where ot would be expected to act (ordering
on the first display column).  Direction is instead encoded by a dash prefix
inside the o parameter. -/
theorem claim4_counterexample :
    [("o", "0"), ("ot", "asc")] ≠ ([("o", "0"), ("ot", "desc")] : Params) ∧
    get_ordering sampleCfg [("o", "0"), ("ot", "asc")] [] =
      get_ordering sampleCfg [("o", "0"), ("ot", "desc")] [] ∧
    get_ordering sampleCfg [("o", "0"), ("ot", "asc")] [] = ["title", "-pk"] := by
  decide

/-- C4 amended: the index view accepts ot in the query string but never
consults it for ordering.  The ordering depends on the request parameters
only through the o parameter, so any two requests agreeing on o (in
particular two requests differing only in ot) receive the same ordering;
ot is merely stripped from the filter lookup parameters as one of the
globally ignored parameters. -/
theorem claim4_amended_ot_ignored (cfg : IndexConfig) (qs_order_by : List String)
    (p1 p2 : Params) (h : getParam p1 ORDER_VAR = getParam p2 ORDER_VAR) :
    get_ordering cfg p1 qs_order_by = get_ordering cfg p2 qs_order_by ∧
    ∀ kv ∈ get_filters_params p1, kv.1 ≠ ORDER_TYPE_VAR := by
  constructor
  · unfold get_ordering ordering_before_pk
    rw [h]
  · intro kv hkv
    unfold get_filters_params filterParams at hkv
    have hp := (List.mem_filter.mp hkv).2
    intro heq
    rw [heq] at hp
    simp [IGNORED_PARAMS] at hp

/-- Witness for C4 amended at two concrete requests differing only in ot. -/
theorem claim4_witness :
    get_ordering sampleCfg [("o", "-0"), ("ot", "x")] [] =
      get_ordering sampleCfg [("o", "-0"), ("ot", "y")] [] ∧
    ∀ kv ∈ get_filters_params [("o", "-0"), ("ot", "x")], kv.1 ≠ ORDER_TYPE_VAR :=
  claim4_amended_ot_ignored sampleCfg [] _ _ (by decide)

/-- C1: for page models, the views implement the specialized flows by
redirection.  A permitted CreateView request redirects to the framework
page-create view with the single valid parent when exactly one valid parent
exists, and to the choose-parent view otherwise; permitted EditView,
ConfirmDeleteView, UnpublishRedirectView and CopyRedirectView requests
redirect to the framework page edit, delete, unpublish and copy views for
the given object id. -/
theorem claim1_pagemodel_redirects (ctx : ViewCtx) (names : PageUrlNames)
    (hpm : ctx.is_pagemodel = true) :
    (∀ pk, CreateView.dispatch ctx names true [pk] =
      { msgs := [],
        http := Http.redirectName names.create [ctx.app_label, ctx.model_name, pk],
        sessionPrimed := true }) ∧
    (∀ parents, parents.length ≠ 1 → CreateView.dispatch ctx names true parents =
      { msgs := [], http := Http.redirectUrl ctx.choose_parent_url,
        sessionPrimed := true }) ∧
    (EditView.dispatch ctx names true =
      { msgs := [], http := Http.redirectName names.edit [ctx.object_id],
        sessionPrimed := true }) ∧
    (∀ env postData, ConfirmDeleteView.handlePost ctx names true env postData =
      Except.ok { msgs := [], http := Http.redirectName names.delete [ctx.object_id],
                  sessionPrimed := true }) ∧
    (UnpublishRedirectView.dispatch ctx names true =
      { msgs := [], http := Http.redirectName names.unpublish [ctx.object_id],
        sessionPrimed := true }) ∧
    (CopyRedirectView.dispatch ctx names true =
      { msgs := [], http := Http.redirectName names.copy [ctx.object_id],
        sessionPrimed := true }) := by
  refine ⟨?_, ?_, ?_, ?_, ?_, ?_⟩
  · intro pk
    simp [CreateView.dispatch, hpm]
  · intro parents hp
    cases parents with
    | nil => simp [CreateView.dispatch, hpm]
    | cons a t =>
      cases t with
      | nil => exact absurd rfl hp
      | cons b t2 => simp [CreateView.dispatch, hpm]
  · simp [EditView.dispatch, hpm]
  · intro env postData
    simp [ConfirmDeleteView.handlePost, hpm]
  · simp [UnpublishRedirectView.dispatch]
  · simp [CopyRedirectView.dispatch]

/-- Witness for C1: the single-parent create redirect at a concrete
page-model context. -/
theorem claim1_witness :
    CreateView.dispatch sampleCtxPage sampleNames true ["5"] =
      { msgs := [],
        http := Http.redirectName sampleNames.create
          [sampleCtxPage.app_label, sampleCtxPage.model_name, "5"],
        sessionPrimed := true } :=
  (claim1_pagemodel_redirects sampleCtxPage sampleNames rfl).1 "5"

/-- C7: the index view consumes the p parameter for pagination.  The page
number is zero when p is absent or unparseable and its integer value
otherwise; the displayed page is page p plus one when that is in range and
the first page otherwise; and the retained parameter dictionary drops
exactly the p and e parameters. -/
theorem claim7_pagination (get : Params) (count per_page : Nat) :
    (getParam get PAGE_VAR = none → parse_page_num get = 0) ∧
    (∀ s, getParam get PAGE_VAR = some s → pyInt s = none → parse_page_num get = 0) ∧
    (∀ s n, getParam get PAGE_VAR = some s → pyInt s = some n → parse_page_num get = n) ∧
    (∀ page_num : Int, 1 ≤ page_num + 1 →
      page_num + 1 ≤ (num_pages count per_page : Int) →
      (displayed_page count per_page page_num : Int) = page_num + 1) ∧
    (∀ page_num : Int,
      ¬ (1 ≤ page_num + 1 ∧ page_num + 1 ≤ (num_pages count per_page : Int)) →
      displayed_page count per_page page_num = 1) ∧
    (∀ kv ∈ computeParams get, kv.1 ≠ PAGE_VAR ∧ kv.1 ≠ ERROR_FLAG) ∧
    (∀ kv ∈ get, kv.1 ≠ PAGE_VAR → kv.1 ≠ ERROR_FLAG → kv ∈ computeParams get) := by
  refine ⟨?_, ?_, ?_, ?_, ?_, ?_, ?_⟩
  · intro h
    unfold parse_page_num
    rw [h]
  · intro s hs hp
    unfold parse_page_num
    rw [hs]
    show (pyInt s).getD 0 = 0
    rw [hp]
    rfl
  · intro s n hs hp
    unfold parse_page_num
    rw [hs]
    show (pyInt s).getD 0 = n
    rw [hp]
    rfl
  · intro page_num h1 h2
    unfold displayed_page paginator_page
    rw [if_pos ⟨h1, h2⟩]
    exact Int.toNat_of_nonneg (le_trans (by norm_num) h1)
  · intro page_num h
    unfold displayed_page paginator_page
    rw [if_neg h]
  · intro kv hkv
    have hp := (List.mem_filter.mp hkv).2
    simp only [decide_eq_true_eq] at hp
    exact hp
  · intro kv hkv h1 h2
    exact List.mem_filter.mpr ⟨hkv, by simp [h1, h2]⟩

/-- Witness for C7 at a concrete request and paginator. -/
theorem claim7_witness :
    (getParam [("p", "zz"), ("e", "1"), ("q", "x")] PAGE_VAR = some "zz") ∧
    (pyInt "zz" = none) ∧
    parse_page_num [("p", "zz"), ("e", "1"), ("q", "x")] = 0 ∧
    ((1 : Int) ≤ 2 + 1) ∧ ((2 + 1 : Int) ≤ (num_pages 25 10 : Int)) ∧
    (displayed_page 25 10 2 : Int) = 2 + 1 ∧
    (("q", "x") ∈ computeParams [("p", "zz"), ("e", "1"), ("q", "x")]) :=
  ⟨by decide, by decide,
   (claim7_pagination [("p", "zz"), ("e", "1"), ("q", "x")] 25 10).2.1 "zz"
     (by decide) (by decide),
   by decide, by decide,
   (claim7_pagination [("p", "zz"), ("e", "1"), ("q", "x")] 25 10).2.2.2.1 2
     (by decide) (by decide),
   (claim7_pagination [("p", "zz"), ("e", "1"), ("q", "x")] 25 10).2.2.2.2.2.2
     ("q", "x") (by decide) (by decide) (by decide)⟩

/-- Counterexample to C8 as stated: the view filters on the admin-quoted
object id, not the object id itself.  With a database whose only object has
primary key _3A and a request for object id given by a colon, no object has
a primary key equal to the object id, yet construction succeeds instead of
raising the 404 (the quote utility maps the colon to _3A). -/
theorem claim8_counterexample :
    quote ":" = "_3A" ∧ ("_3A" : String) ≠ ":" ∧
    objectSpecificInit [("_3A", (0 : Nat))] ":" = Except.ok 0 := by
  decide

/-- C8 amended: for every object-specific view, when no object of the model
has a primary key equal to the admin-quoted object id (for object ids
containing no special characters, the object id itself), construction raises
the framework 404 — before any permission check or action, since the result
is the 404 whatever the subsequent dispatch would have produced. -/
theorem claim8_amended_missing_object_404 {α : Type} (db : List (String × α))
    (object_id : String) (dispatch_after : α → ViewResult)
    (h : ∀ e ∈ db, e.1 ≠ quote object_id) :
    objectViewRun db object_id dispatch_after = Except.error ObjErr.notFound404 := by
  have hf : db.filter (fun e => e.1 = quote object_id) = [] := by
    rw [List.filter_eq_nil_iff]
    intro e he
    simp only [decide_eq_true_eq]
    exact h e he
  unfold objectViewRun objectSpecificInit
  show Except.map dispatch_after
    (match db.filter (fun e => e.1 = quote object_id) with
     | [] => Except.error ObjErr.notFound404
     | [e] => Except.ok e.2
     | _ => Except.error ObjErr.multipleObjectsReturned) =
    Except.error ObjErr.notFound404
  rw [hf]
  rfl

/-- Witness for C8 amended at a concrete database and object id. -/
theorem claim8_witness :
    objectViewRun [("1", (10 : Nat)), ("2", 20)] "9"
      (fun _ => permission_denied_response) = Except.error ObjErr.notFound404 :=
  claim8_amended_missing_object_404 [("1", 10), ("2", 20)] "9"
    (fun _ => permission_denied_response) (by decide)

/-- Counterexample to C3 as stated: a POST whose form data is empty is a
POST by a permitted user to ConfirmDeleteView, but the view neither deletes
nor re-renders; it crashes reading the unassigned local variable context
(the final render sits outside the branch that assigns it). -/
theorem claim3_counterexample :
    ConfirmDeleteView.handlePost sampleCtx sampleNames true sampleDeleteEnv [] =
      Except.error PyError.unboundLocalError := by
  decide

/-- C3 amended: for every POST with non-empty form data to
ConfirmDeleteView of a non-page model by a user permitted to delete the
object: if deleting raises the protected-delete conflict, the object remains
undeleted, an error message is issued, and the confirm-delete template is
re-rendered with the error-protected flag and the objects linked through
PROTECT relations; otherwise the instance is deleted, a success message is
issued, and the response redirects path-wise to the index view.  (A POST
with empty form data instead raises an UnboundLocalError, and for page
models the dispatch redirects to the framework delete view before post
runs.) -/
theorem claim3_amended_post_delete (ctx : ViewCtx) (names : PageUrlNames)
    (env : DeleteEnv) (postData : Params) (hpm : ctx.is_pagemodel = false)
    (hpd : postData ≠ []) :
    (env.delete_raises_protected = true →
      ConfirmDeleteView.handlePost ctx names true env postData =
        Except.ok
          { msgs := [Msg.errorMsg
              (env.model_name ++ " " ++ env.instance_text ++ " could not be deleted.")],
            http := Http.renderDeleteError (protectedLinkedObjects env.related),
            deleted := false }) ∧
    (env.delete_raises_protected = false →
      ConfirmDeleteView.handlePost ctx names true env postData =
        Except.ok
          { msgs := [Msg.successMsg
              (env.model_name ++ " " ++ env.instance_text ++ " deleted.")],
            http := Http.redirectUrl env.index_url, deleted := true }) := by
  constructor
  · intro hprot
    simp [ConfirmDeleteView.handlePost, ConfirmDeleteView.post, hpm, hpd, hprot]
  · intro hprot
    simp [ConfirmDeleteView.handlePost, ConfirmDeleteView.post, hpm, hpd, hprot]

/-- Witness for C3 amended: both delete outcomes at concrete environments. -/
theorem claim3_witness :
    (ConfirmDeleteView.handlePost sampleCtx sampleNames true sampleDeleteEnvProtected
        [("csrf", "t")] =
      Except.ok
        { msgs := [Msg.errorMsg "Thing t1 could not be deleted."],
          http := Http.renderDeleteError
            (protectedLinkedObjects sampleDeleteEnvProtected.related),
          deleted := false }) ∧
    (ConfirmDeleteView.handlePost sampleCtx sampleNames true sampleDeleteEnv
        [("csrf", "t")] =
      Except.ok
        { msgs := [Msg.successMsg "Thing t1 deleted."],
          http := Http.redirectUrl "/index", deleted := true }) :=
  ⟨(claim3_amended_post_delete sampleCtx sampleNames sampleDeleteEnvProtected
      [("csrf", "t")] rfl (by decide)).1 rfl,
   (claim3_amended_post_delete sampleCtx sampleNames sampleDeleteEnv
      [("csrf", "t")] rfl (by decide)).2 rfl⟩

/-- Helper: the per-bit filter fold of get_search_results appends one
OR-group per bit to the filters of the queryset. -/
theorem search_foldl_filters (ols : List String) (bits : List String) (qs : Queryset) :
    (bits.foldl
      (fun q bit => { q with filters := q.filters ++ [ols.map (fun l => (l, bit))] }) qs) =
    { qs with filters := qs.filters ++ bits.map (fun bit => ols.map (fun l => (l, bit))) } := by
  induction bits generalizing qs with
  | nil => simp
  | cons b t ih =>
    simp only [List.foldl_cons, List.map_cons]
    rw [ih]
    simp

/-- The OR-groups the search adds: one group per bit of the term, each
pairing every constructed lookup with that bit. -/
def searchGroups (search_fields : List String) (bits : List String) :
    List (List (String × String)) :=
  bits.map (fun bit => (search_fields.map construct_search).map (fun l => (l, bit)))

/-- A sample row matcher for witnesses: rows are naturals, and a lookup
matches when it is the icontains lookup on title and the value non-empty. -/
def sampleMatcher : String → String → Nat → Bool :=
  fun l v _ => l = "title__icontains" && v ≠ ""

/-- A sample queryset carrying one filter already. -/
def sampleQs2 : Queryset := { filters := [[("title__icontains", "z")]], order_by := [] }

/-- Helper: all over a map, for a map that changes the element type. -/
theorem all_map_general {α β : Type} (f : α → β) (l : List α) (p : β → Bool) :
    (l.map f).all p = l.all (fun a => p (f a)) := by
  induction l with
  | nil => rfl
  | cons a t ih => simp [ih]

/-- Helper: any over a map, for a map that changes the element type. -/
theorem any_map_general {α β : Type} (f : α → β) (l : List α) (p : β → Bool) :
    (l.map f).any p = l.any (fun a => p (f a)) := by
  induction l with
  | nil => rfl
  | cons a t ih => simp [ih]

/-- Helper: appending the search OR-groups to the filters of a queryset
keeps a row exactly when the original filters kept it and every bit is
matched by some constructed lookup. -/
theorem matches_append_searchGroups {ρ : Type} (M : String → String → ρ → Bool)
    (row : ρ) (qs : Queryset) (sf : List String) (bits : List String) :
    Queryset.matches { qs with filters := qs.filters ++ searchGroups sf bits } M row = true ↔
    (qs.matches M row = true ∧
      ∀ bit ∈ bits, ∃ f ∈ sf, M (construct_search f) bit row = true) := by
  unfold Queryset.matches searchGroups
  rw [List.all_append, Bool.and_eq_true]
  apply and_congr Iff.rfl
  rw [all_map_general, List.all_eq_true]
  apply forall_congr'
  intro bit
  apply imp_congr Iff.rfl
  show ((sf.map construct_search).map (fun l => (l, bit))).any
    (fun lv => M lv.1 lv.2 row) = true ↔ _
  rw [any_map_general, any_map_general, List.any_eq_true]

/-- C5: with non-empty search fields, a row survives the searched queryset
exactly when it survived before and, for every whitespace-separated bit of
the term, at least one search field matches that bit under the constructed
lookup; a caret prefix builds istartswith, an equals sign iexact, an at sign
the search lookup, anything else icontains; and with empty search fields or
an empty term the queryset is returned unchanged with the
may-contain-duplicates flag False. -/
theorem claim5_search_results {ρ : Type} (search_fields : List String)
    (needs_distinct : String → Bool) (qs : Queryset) (term : String)
    (M : String → String → ρ → Bool) (row : ρ) :
    (search_fields = [] ∨ term = "" →
      get_search_results search_fields needs_distinct qs term = (qs, false)) ∧
    (search_fields ≠ [] →
      ((get_search_results search_fields needs_distinct qs term).1.matches M row = true ↔
        (qs.matches M row = true ∧ ∀ bit ∈ pySplitWs term, ∃ f ∈ search_fields,
          M (construct_search f) bit row = true))) ∧
    (∀ f, f.toList.take 1 = ['^'] →
      construct_search f = String.mk (f.toList.drop 1) ++ "__istartswith") ∧
    (∀ f, f.toList.take 1 = ['='] →
      construct_search f = String.mk (f.toList.drop 1) ++ "__iexact") ∧
    (∀ f, f.toList.take 1 = ['@'] →
      construct_search f = String.mk (f.toList.drop 1) ++ "__search") ∧
    (∀ f, f.toList.take 1 ≠ ['^'] → f.toList.take 1 ≠ ['='] → f.toList.take 1 ≠ ['@'] →
      construct_search f = f ++ "__icontains") := by
  refine ⟨?_, ?_, ?_, ?_, ?_, ?_⟩
  · intro h
    unfold get_search_results
    rw [if_neg (by tauto)]
  · intro hsf
    by_cases ht : term = ""
    · subst ht
      unfold get_search_results
      rw [if_neg (by tauto)]
      simp [pySplitWs, pySplitWsAux]
    · have hres : (get_search_results search_fields needs_distinct qs term).1 =
          { qs with filters := qs.filters ++ searchGroups search_fields (pySplitWs term) } := by
        unfold get_search_results
        rw [if_pos ⟨hsf, ht⟩]
        exact search_foldl_filters (search_fields.map construct_search) (pySplitWs term) qs
      rw [hres]
      exact matches_append_searchGroups M row qs search_fields (pySplitWs term)
  · intro f hf
    unfold construct_search
    cases hl : f.toList with
    | nil => rw [hl] at hf; simp at hf
    | cons c cs =>
      rw [hl] at hf
      simp at hf
      rw [hf]
      rfl
  · intro f hf
    unfold construct_search
    cases hl : f.toList with
    | nil => rw [hl] at hf; simp at hf
    | cons c cs =>
      rw [hl] at hf
      simp at hf
      rw [hf]
      rfl
  · intro f hf
    unfold construct_search
    cases hl : f.toList with
    | nil => rw [hl] at hf; simp at hf
    | cons c cs =>
      rw [hl] at hf
      simp at hf
      rw [hf]
      rfl
  · intro f h1 h2 h3
    unfold construct_search
    split
    · rename_i rest heq; rw [heq] at h1; simp at h1
    · rename_i rest heq; rw [heq] at h2; simp at h2
    · rename_i rest heq; rw [heq] at h3; simp at h3
    · rfl

/-- Witness for C5: the empty-fields case and the two-bit search case at
concrete inputs. -/
theorem claim5_witness :
    (get_search_results [] (fun _ => false) sampleQs2 "x" = (sampleQs2, false)) ∧
    ((get_search_results ["title"] (fun _ => false) sampleQs2 "x y").1.matches
        sampleMatcher 7 = true ↔
      (sampleQs2.matches sampleMatcher 7 = true ∧ ∀ bit ∈ pySplitWs "x y",
        ∃ f ∈ ["title"], sampleMatcher (construct_search f) bit 7 = true)) :=
  ⟨(claim5_search_results [] (fun _ => false) sampleQs2 "x" sampleMatcher 7).1
     (Or.inl rfl),
   (claim5_search_results ["title"] (fun _ => false) sampleQs2 "x y" sampleMatcher 7).2.1
     (by decide)⟩

/-- Counterexample to C2 as stated: a disallowed filter lookup is not
converted to a user-facing message or a permission-denied response inside
this module.  At a concrete request carrying the disallowed lookup a__b__c,
the dispatch of the index view (here with the list view allowed) terminates
with the DisallowedModelAdminLookup exception itself, which propagates. -/
theorem claim2_counterexample :
    IndexView.dispatch sampleCfg sampleFw sampleQs [("a__b__c", "1")] true =
      Except.error (AdminError.disallowedModelAdminLookup "a__b__c") ∧
    ∀ r, IndexView.dispatch sampleCfg sampleFw sampleQs [("a__b__c", "1")] true ≠
      Except.ok r := by
  constructor
  · decide
  · intro r h
    rw [show IndexView.dispatch sampleCfg sampleFw sampleQs [("a__b__c", "1")] true =
      Except.error (AdminError.disallowedModelAdminLookup "a__b__c") from by decide] at h
    cases h

/-- C2 amended: when an index-view request carries a filter lookup parameter
rejected by lookup_allowed, get_filters raises DisallowedModelAdminLookup;
get_queryset deliberately re-raises it (it is a SuspiciousOperation) and
IndexView.dispatch does not catch it, so the dispatch result is that
exception — never a rendered message and never the permission-denied
response — whatever the permission check would have said.  Only the
FieldDoesNotExist case of the remaining-parameter loop is converted (to
IncorrectLookupParameters). -/
theorem claim2_amended_disallowed_propagates (cfg : IndexConfig) (fw : Framework)
    (baseQs : Queryset) (get : Params) (allow_list_view : Bool)
    (h : ∃ kv ∈ get_filters_params (computeParams get),
      lookup_allowed cfg.meta cfg.list_filter kv.1 kv.2 = false) :
    ∃ key, IndexView.dispatch cfg fw baseQs get allow_list_view =
      Except.error (AdminError.disallowedModelAdminLookup key) := by
  have hsome : (firstDisallowed cfg.meta cfg.list_filter
      (get_filters_params (computeParams get))).isSome := by
    unfold firstDisallowed
    rw [List.find?_isSome]
    obtain ⟨kv, hkv, hla⟩ := h
    exact ⟨kv, hkv, by simp [hla]⟩
  obtain ⟨kv0, hfind⟩ := Option.isSome_iff_exists.mp hsome
  have hgf : get_filters cfg fw (computeParams get) =
      Except.error (AdminError.disallowedModelAdminLookup kv0.1) := by
    unfold get_filters
    rw [hfind]
  refine ⟨kv0.1, ?_⟩
  simp only [IndexView.dispatch, get_queryset]
  rw [hgf]
  rfl

/-- Witness for C2 amended at the concrete disallowed request. -/
theorem claim2_witness :
    (∃ kv ∈ get_filters_params (computeParams [("a__b__c", "1")]),
      lookup_allowed sampleCfg.meta sampleCfg.list_filter kv.1 kv.2 = false) ∧
    ∃ key, IndexView.dispatch sampleCfg sampleFw sampleQs [("a__b__c", "1")] false =
      Except.error (AdminError.disallowedModelAdminLookup key) :=
  ⟨by decide,
   claim2_amended_disallowed_propagates sampleCfg sampleFw sampleQs
     [("a__b__c", "1")] false (by decide)⟩

/-- Counterexample to C6 as stated: the index view computes its result
queryset before the allow_list_view check, so for a request whose
parameters carry a disallowed lookup and a user the check would deny, the
response is the propagating exception, not an error message plus a redirect
to the admin home page. -/
theorem claim6_counterexample :
    IndexView.dispatch sampleCfg sampleFw sampleQs [("a__b__c", "2")] false =
      Except.error (AdminError.disallowedModelAdminLookup "a__b__c") ∧
    IndexView.dispatch sampleCfg sampleFw sampleQs [("a__b__c", "2")] false ≠
      Except.ok permission_denied_response := by
  decide

/-- C6 amended: for every view, when the delegated permission check denies
the user, the response is the error message plus the redirect to the admin
home page, and no object is created, modified or deleted (the denial result
carries no session priming and no deletion) — except that the index view
computes its queryset before its permission check, so its denial response
only materialises when that computation returns, and a request with
exception-raising parameters propagates the exception instead. -/
theorem claim6_amended_denials :
    permission_denied_response.msgs = [Msg.errorMsg permission_denied_message] ∧
    permission_denied_response.http = Http.redirectName "wagtailadmin_home" [] ∧
    permission_denied_response.deleted = false ∧
    permission_denied_response.sessionPrimed = false ∧
    (∀ ctx names parents,
      CreateView.dispatch ctx names false parents = permission_denied_response) ∧
    (ChooseParentView.dispatch false = permission_denied_response) ∧
    (InspectView.dispatch false = permission_denied_response) ∧
    (∀ ctx names, EditView.dispatch ctx names false = permission_denied_response) ∧
    (∀ ctx names env postData, ConfirmDeleteView.handlePost ctx names false env postData =
      Except.ok permission_denied_response) ∧
    (∀ ctx names,
      UnpublishRedirectView.dispatch ctx names false = permission_denied_response) ∧
    (∀ ctx names,
      CopyRedirectView.dispatch ctx names false = permission_denied_response) ∧
    (∀ cfg fw baseQs get r, IndexView.dispatch cfg fw baseQs get false = Except.ok r →
      r = permission_denied_response) := by
  refine ⟨rfl, rfl, rfl, rfl, ?_, rfl, rfl, ?_, ?_, ?_, ?_, ?_⟩
  · intro ctx names parents
    rfl
  · intro ctx names
    rfl
  · intro ctx names env postData
    rfl
  · intro ctx names
    rfl
  · intro ctx names
    rfl
  · intro cfg fw baseQs get r h
    cases hq : get_queryset cfg fw baseQs (computeParams get)
        ((getParam get SEARCH_VAR).getD "") with
    | error e =>
      simp only [IndexView.dispatch] at h
      rw [hq] at h
      cases h
    | ok q =>
      simp only [IndexView.dispatch] at h
      rw [hq] at h
      have h2 : (Except.ok permission_denied_response : Except AdminError ViewResult) =
          Except.ok r := h
      exact (Except.ok.inj h2).symm

/-- Witness for C6 amended: a concrete denial and the concrete index-view
denial with benign parameters. -/
theorem claim6_witness :
    CreateView.dispatch sampleCtx sampleNames false [] = permission_denied_response ∧
    permission_denied_response = permission_denied_response :=
  ⟨claim6_amended_denials.2.2.2.2.1 sampleCtx sampleNames [],
   (claim6_amended_denials.2.2.2.2.2.2.2.2.2.2.2 sampleCfg sampleFw sampleQs []
     permission_denied_response (by decide)).symm⟩
